import Mathlib

/-!
Shallow embedding of `gancer/models/vox2vox_model.py` (class `Vox2VoxModel`).

Tensors are modelled as lists of rationals together with their gradients
with respect to the generator and discriminator parameters (the autograd
tape is represented by the gradient map itself; the chain rule of the
underlying autograd library is the assumed external contract and is baked
into the application combinators).  Networks are opaque differentiable
maps given by a value function and its Jacobians.  Randomness consumed by
the image pool is passed in explicitly.
-/

namespace Vox2Vox

/-- A tensor's values: a flat list of rationals. -/
abbrev Vec := List ℚ

/-- A Jacobian matrix: rows indexed by outputs, columns by inputs. -/
abbrev Mat := List (List ℚ)

def dot (a b : Vec) : ℚ := (List.zipWith (· * ·) a b).sum

def addVec (a b : Vec) : Vec := List.zipWith (· + ·) a b

def matVec (m : Mat) (v : Vec) : Vec := m.map (fun row => dot row v)

def zeroVec (n : ℕ) : Vec := List.replicate n 0

/-- `x.mean()` of the tensor library. -/
def mean (v : Vec) : ℚ := v.sum / (v.length : ℚ)

/-- A gradient-carrying tensor: values plus the derivative of each entry
with respect to every generator parameter (`Sum.inl`) and discriminator
parameter (`Sum.inr`). -/
structure TVal (nG nD : ℕ) where
  val : Vec
  grad : Fin nG ⊕ Fin nD → Vec

/-- A gradient-carrying scalar (a loss value). -/
structure SVal (nG nD : ℕ) where
  val : ℚ
  grad : Fin nG ⊕ Fin nD → ℚ

/-- A fresh `Variable` wrapping raw data: a leaf of the autograd graph,
carrying no dependence on any network parameter. -/
def leafT {nG nD : ℕ} (v : Vec) : TVal nG nD :=
  ⟨v, fun _ => zeroVec v.length⟩

/-- `.detach()` (and `.data`): same values, gradient flow cut. -/
def detachT {nG nD : ℕ} (x : TVal nG nD) : TVal nG nD :=
  ⟨x.val, fun _ => zeroVec x.val.length⟩

/-- `torch.cat((a, b), 1)`: concatenation along the channel axis (the
batch axis is not modelled; values and gradients concatenate). -/
def catT {nG nD : ℕ} (a b : TVal nG nD) : TVal nG nD :=
  ⟨a.val ++ b.val, fun p => a.grad p ++ b.grad p⟩

def addS {nG nD : ℕ} (a b : SVal nG nD) : SVal nG nD :=
  ⟨a.val + b.val, fun p => a.grad p + b.grad p⟩

def scaleS {nG nD : ℕ} (a : SVal nG nD) (c : ℚ) : SVal nG nD :=
  ⟨a.val * c, fun p => a.grad p * c⟩

/-- An opaque differentiable network with `nP` scalar parameters:
its value function, its Jacobian with respect to the input, and the
gradient of each output with respect to each parameter.
(`networks.define_G` / `networks.define_D` produce such objects.) -/
structure Net (nP : ℕ) where
  f : (Fin nP → ℚ) → Vec → Vec
  dIn : (Fin nP → ℚ) → Vec → Mat
  dP : (Fin nP → ℚ) → Vec → Fin nP → Vec

/-- Apply the generator under autograd: the output gradient with respect
to any parameter is the chain-rule term through the input plus, for
generator parameters, the network's own parameter gradient. -/
def applyNetG {nG nD : ℕ} (net : Net nG) (pv : Fin nG → ℚ) (x : TVal nG nD) : TVal nG nD :=
  { val := net.f pv x.val
    grad := fun p =>
      addVec (matVec (net.dIn pv x.val) (x.grad p))
        (match p with
         | Sum.inl g => net.dP pv x.val g
         | Sum.inr _ => zeroVec (net.f pv x.val).length) }

/-- Apply the discriminator under autograd (direct parameter gradients
attach to discriminator parameters only). -/
def applyNetD {nG nD : ℕ} (net : Net nD) (pv : Fin nD → ℚ) (x : TVal nG nD) : TVal nG nD :=
  { val := net.f pv x.val
    grad := fun p =>
      addVec (matVec (net.dIn pv x.val) (x.grad p))
        (match p with
         | Sum.inl _ => zeroVec (net.f pv x.val).length
         | Sum.inr d => net.dP pv x.val d) }

/-- An adversarial criterion: scalar value on a prediction tensor and a
boolean target label, with its derivative with respect to the prediction.
It owns no parameters, so its gradient flows only through its input. -/
structure Crit where
  f : Vec → Bool → ℚ
  d : Vec → Bool → Vec

def applyCrit {nG nD : ℕ} (c : Crit) (x : TVal nG nD) (y : Bool) : SVal nG nD :=
  ⟨c.f x.val y, fun p => dot (c.d x.val y) (x.grad p)⟩

/-- `-2 * int(y) + 1`: the sign applied to the mean score by the
Wasserstein criterion (`int(True) = 1`, `int(False) = 0`). -/
def wSign (y : Bool) : ℚ := -2 * (if y then (1 : ℚ) else 0) + 1

/-- The Wasserstein criterion of `initialize`:
`lambda x, y: x.mean() * (-2 * int(y) + 1)`. -/
def wassersteinCrit : Crit :=
  { f := fun x y => mean x * wSign y
    d := fun x y => List.replicate x.length (wSign y / (x.length : ℚ)) }

/-- The reconstruction criterion selected by `initialize`:
`torch.nn.L1Loss()` or `torch.nn.MSELoss()` (mean absolute difference,
respectively mean squared difference, per the library contract). -/
inductive ReconCrit where
  | l1Loss : ReconCrit
  | mseLoss : ReconCrit
deriving DecidableEq

def sgn (q : ℚ) : ℚ := if 0 < q then 1 else if q < 0 then -1 else 0

def ReconCrit.f : ReconCrit → Vec → Vec → ℚ
  | .l1Loss, a, b => mean (List.zipWith (fun x y => |x - y|) a b)
  | .mseLoss, a, b => mean (List.zipWith (fun x y => (x - y) ^ 2) a b)

def ReconCrit.d1 : ReconCrit → Vec → Vec → Vec
  | .l1Loss, a, b => List.zipWith (fun x y => sgn (x - y) / (a.length : ℚ)) a b
  | .mseLoss, a, b => List.zipWith (fun x y => 2 * (x - y) / (a.length : ℚ)) a b

def ReconCrit.d2 : ReconCrit → Vec → Vec → Vec
  | .l1Loss, a, b => List.zipWith (fun x y => -sgn (x - y) / (a.length : ℚ)) a b
  | .mseLoss, a, b => List.zipWith (fun x y => -(2 * (x - y)) / (a.length : ℚ)) a b

def applyRecon {nG nD : ℕ} (c : ReconCrit) (a b : TVal nG nD) : SVal nG nD :=
  ⟨c.f a.val b.val,
   fun p => dot (c.d1 a.val b.val) (a.grad p) + dot (c.d2 a.val b.val) (b.grad p)⟩

/-- Modelled from the spec: `util.image_pool.ImagePool` (the file
`util/image_pool.py` is not part of the provided sources).  A
fixed-capacity buffer of previously generated discriminator inputs. -/
structure ImagePool where
  pool_size : ℕ
  images : List Vec

/-- Modelled from the spec: `ImagePool.query`.  If capacity is 0, pooling
is disabled and the input passes through.  While the buffer is not full,
the input is appended and returned unchanged.  Once full, a coin decides:
return the input unchanged, or overwrite a random slot and return that
slot's previous content.  The coin and slot index are passed explicitly. -/
def ImagePool.query (pool : ImagePool) (coin : Bool) (idx : ℕ) (img : Vec) :
    ImagePool × Vec :=
  if pool.pool_size = 0 then (pool, img)
  else if pool.images.length < pool.pool_size then
    ({ pool with images := pool.images ++ [img] }, img)
  else if coin then
    let i := idx % pool.images.length
    ({ pool with images := pool.images.set i img }, pool.images.getD i img)
  else (pool, img)

/-- The mutable instance state of `Vox2VoxModel` during training:
configuration, networks with their parameter values and accumulated
parameter gradients, criteria, the image pool, the current inputs, the
derived tensors and the per-step losses. -/
structure TrainState (nG nD : ℕ) where
  wasserstein : Bool
  lambda_A : ℚ
  which_direction : String
  netG : Net nG
  netD : Net nD
  gP : Fin nG → ℚ
  gGrad : Fin nG → ℚ
  dP : Fin nD → ℚ
  dGrad : Fin nD → ℚ
  criterionGAN : Crit
  criterionL1 : ReconCrit
  fake_AB_pool : ImagePool
  input_A : Vec
  input_B : Vec
  image_paths : List String
  real_A : TVal nG nD
  fake_B : TVal nG nD
  real_B : TVal nG nD
  loss_D_fake : SVal nG nD
  loss_D_real : SVal nG nD
  loss_D : SVal nG nD
  loss_G_GAN : SVal nG nD
  loss_G_L1 : SVal nG nD
  loss_G : SVal nG nD

/-- The mapping passed to `set_input`: two paired tensors and their
source-path metadata. -/
structure InputBatch where
  A : Vec
  B : Vec
  A_paths : List String
  B_paths : List String

/-- `set_input`: select the A/B roles according to `which_direction`
(the GPU transfer is a value-preserving device move and is not
modelled). -/
def set_input {nG nD : ℕ} (inp : InputBatch) (s : TrainState nG nD) : TrainState nG nD :=
  let AtoB := s.which_direction == "AtoB"
  { s with
    input_A := if AtoB then inp.A else inp.B
    input_B := if AtoB then inp.B else inp.A
    image_paths := if AtoB then inp.A_paths else inp.B_paths }

/-- `forward`: wrap the inputs as `Variable`s and run the generator. -/
def forward {nG nD : ℕ} (s : TrainState nG nD) : TrainState nG nD :=
  let real_A : TVal nG nD := leafT s.input_A
  { s with
    real_A := real_A
    fake_B := applyNetG s.netG s.gP real_A
    real_B := leafT s.input_B }

/-- `test`: same computation as `forward` but with `volatile=True`
Variables, i.e. no gradient recording on the result. -/
def test {nG nD : ℕ} (s : TrainState nG nD) : TrainState nG nD :=
  let real_A : TVal nG nD := leafT s.input_A
  { s with
    real_A := real_A
    fake_B := detachT (applyNetG s.netG s.gP real_A)
    real_B := leafT s.input_B }

/-- `loss.backward()`: accumulate the loss gradient into every
parameter's `.grad` field (the autograd library's contract). -/
def backwardLoss {nG nD : ℕ} (L : SVal nG nD) (s : TrainState nG nD) : TrainState nG nD :=
  { s with
    gGrad := fun g => s.gGrad g + L.grad (Sum.inl g)
    dGrad := fun d => s.dGrad d + L.grad (Sum.inr d) }

/-- `backward_D`: query the pool with the raw data of
`torch.cat((real_A, fake_B), 1)`, detach the result, score fake and real
pairs, average the two adversarial losses and backpropagate. -/
def backward_D {nG nD : ℕ} (coin : Bool) (idx : ℕ) (s : TrainState nG nD) : TrainState nG nD :=
  let q := s.fake_AB_pool.query coin idx (catT s.real_A s.fake_B).val
  let fake_AB : TVal nG nD := detachT (leafT q.2)
  let pred_fake := applyNetD s.netD s.dP fake_AB
  let loss_D_fake := applyCrit s.criterionGAN pred_fake false
  let real_AB := catT s.real_A s.real_B
  let pred_real := applyNetD s.netD s.dP real_AB
  let loss_D_real := applyCrit s.criterionGAN pred_real true
  let loss_D := scaleS (addS loss_D_fake loss_D_real) (1/2)
  backwardLoss loss_D
    { s with
      fake_AB_pool := q.1
      loss_D_fake := loss_D_fake
      loss_D_real := loss_D_real
      loss_D := loss_D }

/-- `backward_G`: score the gradient-connected (not pooled, not
detached) concatenation of `real_A` and `fake_B` against the real label,
add the weighted reconstruction loss and backpropagate. -/
def backward_G {nG nD : ℕ} (s : TrainState nG nD) : TrainState nG nD :=
  let fake_AB := catT s.real_A s.fake_B
  let pred_fake := applyNetD s.netD s.dP fake_AB
  let loss_G_GAN := applyCrit s.criterionGAN pred_fake true
  let loss_G_L1 := scaleS (applyRecon s.criterionL1 s.fake_B s.real_B) s.lambda_A
  let loss_G := addS loss_G_GAN loss_G_L1
  backwardLoss loss_G
    { s with
      loss_G_GAN := loss_G_GAN
      loss_G_L1 := loss_G_L1
      loss_G := loss_G }

/-- `optimizer_D.zero_grad()`: clear the discriminator gradients. -/
def zeroGradD {nG nD : ℕ} (s : TrainState nG nD) : TrainState nG nD :=
  { s with dGrad := fun _ => 0 }

/-- `optimizer_G.zero_grad()`: clear the generator gradients. -/
def zeroGradG {nG nD : ℕ} (s : TrainState nG nD) : TrainState nG nD :=
  { s with gGrad := fun _ => 0 }

/-- `optimizer_D.step()`: the optimizer owns exactly
`netD.parameters()` and updates each from its value and gradient by an
update rule `u` (Adam's per-element rule with its internal moments is an
instance). -/
def stepD {nG nD : ℕ} (u : Fin nD → ℚ → ℚ → ℚ) (s : TrainState nG nD) : TrainState nG nD :=
  { s with dP := fun d => u d (s.dP d) (s.dGrad d) }

/-- `optimizer_G.step()`: updates exactly `netG.parameters()`. -/
def stepG {nG nD : ℕ} (u : Fin nG → ℚ → ℚ → ℚ) (s : TrainState nG nD) : TrainState nG nD :=
  { s with gP := fun g => u g (s.gP g) (s.gGrad g) }

/-- `clip_D`: `D_param.data.clamp_(-0.01, 0.01)` on every discriminator
parameter. -/
def clip_D {nG nD : ℕ} (s : TrainState nG nD) : TrainState nG nD :=
  { s with dP := fun d => min (max (s.dP d) (-(1/100))) (1/100) }

/-- The observable steps of one `optimize_parameters` call, in order. -/
inductive Event where
  | forwardStep : Event
  | zeroGradDStep : Event
  | backwardDStep : Event
  | optimizerDStep : Event
  | clipDStep : Event
  | zeroGradGStep : Event
  | backwardGStep : Event
  | optimizerGStep : Event
deriving DecidableEq

/-- `optimize_parameters`: forward, discriminator update, optional
Wasserstein clipping, generator update — returning the final state and
the trace of steps taken. -/
def optimize_parameters {nG nD : ℕ} (uD : Fin nD → ℚ → ℚ → ℚ) (uG : Fin nG → ℚ → ℚ → ℚ)
    (coin : Bool) (idx : ℕ) (s : TrainState nG nD) : TrainState nG nD × List Event :=
  let s1 := forward s
  let s2 := zeroGradD s1
  let s3 := backward_D coin idx s2
  let s4 := stepD uD s3
  let p5 := if s4.wasserstein then (clip_D s4, [Event.clipDStep]) else (s4, [])
  let s6 := zeroGradG p5.1
  let s7 := backward_G s6
  let s8 := stepG uG s7
  (s8,
   [Event.forwardStep, Event.zeroGradDStep, Event.backwardDStep, Event.optimizerDStep]
     ++ p5.2
     ++ [Event.zeroGradGStep, Event.backwardGStep, Event.optimizerGStep])

/-- The configuration surface consumed by `Vox2VoxModel.initialize`.
The externally defined collaborators — the networks produced by
`networks.define_G` / `networks.define_D` together with their freshly
initialized parameter values, the checkpoint contents read by
`load_network`, and the `networks.GANLoss` object (modelled from the
spec: a standard GAN loss parameterized by a use-least-squares flag;
`models/networks.py` and `models/base_model.py` are not part of the
provided sources) — are carried as fields. -/
structure Opt (nG nD : ℕ) where
  isTrain : Bool
  continue_train : Bool
  no_img : Bool
  output_nc : ℕ
  wasserstein : Bool
  no_lsgan : Bool
  recon_loss : String
  pool_size : ℕ
  lambda_A : ℚ
  lr : ℚ
  beta1 : ℚ
  which_direction : String
  which_epoch : String
  netG0 : Net nG
  netD0 : Net nD
  initG : Fin nG → ℚ
  initD : Fin nD → ℚ
  chkG : Fin nG → ℚ
  chkD : Fin nD → ℚ
  ganLoss : Bool → Crit

/-- Which network's parameters an optimizer owns. -/
inductive OptTag where
  | G : OptTag
  | D : OptTag
deriving DecidableEq

/-- A constructed `torch.optim.Adam` handle: the parameter set it owns
and its hyperparameters. -/
structure OptimizerRec where
  params : OptTag
  lr : ℚ
  beta1 : ℚ
deriving DecidableEq

/-- A scheduler produced by `networks.get_scheduler` for one optimizer. -/
structure SchedulerRec where
  optimizer : OptimizerRec
deriving DecidableEq

/-- The attributes `initialize` may set on the model object.  Attributes
the Python code has not assigned are `none` / empty. -/
structure InitState (nG nD : ℕ) where
  isTrain : Bool
  no_img : Bool
  netG : Net nG
  gP : Fin nG → ℚ
  netD : Option (Net nD) := none
  dP : Option (Fin nD → ℚ) := none
  fake_AB_pool : Option ImagePool := none
  criterionGAN : Option Crit := none
  criterionL1 : Option ReconCrit := none
  schedulers : List SchedulerRec := []
  optimizers : List OptimizerRec := []
  optimizer_G : Option OptimizerRec := none
  optimizer_D : Option OptimizerRec := none

/-- The optimizer/scheduler block at the end of `initialize`, reached
only after loss selection succeeded. -/
def finishInit {nG nD : ℕ} (opt : Opt nG nD) (st : InitState nG nD) :
    Except (String × InitState nG nD) (InitState nG nD) :=
  let optimizer_G : OptimizerRec := ⟨OptTag.G, opt.lr, opt.beta1⟩
  let optimizer_D : OptimizerRec := ⟨OptTag.D, opt.lr, opt.beta1⟩
  let optimizers := [optimizer_G, optimizer_D]
  let schedulers := optimizers.map (fun o => SchedulerRec.mk o)
  Except.ok
    { st with
      optimizer_G := some optimizer_G
      optimizer_D := some optimizer_D
      optimizers := optimizers
      schedulers := schedulers }

/-- `Vox2VoxModel.initialize`, step by step in source order.  A raised
`NotImplementedError` is an `Except.error` carrying the message and the
attributes assigned up to the raise point. -/
def initModel {nG nD : ℕ} (opt : Opt nG nD) :
    Except (String × InitState nG nD) (InitState nG nD) :=
  let st : InitState nG nD :=
    { isTrain := opt.isTrain
      no_img := opt.no_img && (opt.output_nc == 1)
      netG := opt.netG0
      gP := opt.initG }
  let st := if opt.isTrain then { st with netD := some opt.netD0, dP := some opt.initD } else st
  let st :=
    if !opt.isTrain || opt.continue_train then
      let st := { st with gP := opt.chkG }
      if opt.isTrain then { st with dP := some opt.chkD } else st
    else st
  if opt.isTrain then
    let st := { st with fake_AB_pool := some ⟨opt.pool_size, []⟩ }
    let st :=
      { st with
        criterionGAN :=
          some (if opt.wasserstein then wassersteinCrit else opt.ganLoss (!opt.no_lsgan)) }
    if opt.recon_loss = "l1" then
      finishInit opt { st with criterionL1 := some ReconCrit.l1Loss }
    else if opt.recon_loss = "l2" then
      finishInit opt { st with criterionL1 := some ReconCrit.mseLoss }
    else
      Except.error ("Not a valid reconstruction loss", st)
  else
    Except.ok st

/-- The attributes of the model object after `initialize`, whether it
returned normally or raised. -/
def stateOf {nG nD : ℕ} :
    Except (String × InitState nG nD) (InitState nG nD) → InitState nG nD
  | Except.ok st => st
  | Except.error (_, st) => st

/-- `save(label)`: persist the generator under name "G" and then the
discriminator under name "D".  Each persisted record is (network name,
label, parameter values).  Accessing the absent `netD` attribute raises;
the error carries the records already written. -/
def save {nG nD : ℕ} (st : InitState nG nD) (label : String) :
    Except (String × List (String × String × Vec)) (List (String × String × Vec)) :=
  let gRec : String × String × Vec := ("G", label, List.ofFn st.gP)
  match st.netD, st.dP with
  | some _, some dp => Except.ok [gRec, ("D", label, List.ofFn dp)]
  | _, _ => Except.error ("AttributeError: netD", [gRec])

/-- A one-parameter scaling network, used to instantiate the model on
concrete inputs. -/
def tinyNet : Net 1 :=
  { f := fun p x => x.map (fun v => p 0 * v)
    dIn := fun p x => x.map (fun _ => x.map (fun _ => p 0))
    dP := fun _ x _ => x }

/-- A concrete per-parameter optimizer update rule (plain gradient
descent with unit step). -/
def updRule {n : ℕ} : Fin n → ℚ → ℚ → ℚ := fun _ p g => p - g

/-- A concrete training-time model state over one generator and one
discriminator parameter; the discriminator parameter starts at 5,
outside the Wasserstein clipping range. -/
def sampleTrain (w : Bool) : TrainState 1 1 :=
  { wasserstein := w
    lambda_A := 10
    which_direction := "AtoB"
    netG := tinyNet
    netD := tinyNet
    gP := fun _ => 1
    gGrad := fun _ => 0
    dP := fun _ => 5
    dGrad := fun _ => 0
    criterionGAN := wassersteinCrit
    criterionL1 := ReconCrit.l1Loss
    fake_AB_pool := ⟨0, []⟩
    input_A := [1]
    input_B := [2]
    image_paths := []
    real_A := leafT [1]
    fake_B := leafT [1]
    real_B := leafT [2]
    loss_D_fake := ⟨0, fun _ => 0⟩
    loss_D_real := ⟨0, fun _ => 0⟩
    loss_D := ⟨0, fun _ => 0⟩
    loss_G_GAN := ⟨0, fun _ => 0⟩
    loss_G_L1 := ⟨0, fun _ => 0⟩
    loss_G := ⟨0, fun _ => 0⟩ }

/-- A concrete configuration over one generator and one discriminator
parameter. -/
def sampleOpt (train wass : Bool) (recon : String) : Opt 1 1 :=
  { isTrain := train
    continue_train := false
    no_img := false
    output_nc := 1
    wasserstein := wass
    no_lsgan := false
    recon_loss := recon
    pool_size := 50
    lambda_A := 100
    lr := 2/10000
    beta1 := 1/2
    which_direction := "AtoB"
    which_epoch := "latest"
    netG0 := tinyNet
    netD0 := tinyNet
    initG := fun _ => 1
    initD := fun _ => 2
    chkG := fun _ => 3
    chkD := fun _ => 4
    ganLoss := fun _ => wassersteinCrit }

lemma dot_eq_zero (c v : Vec) (h : ∀ x ∈ v, x = 0) : dot c v = 0 := by
  induction c generalizing v with
  | nil => simp [dot]
  | cons a c ih =>
    cases v with
    | nil => simp [dot]
    | cons b w =>
      have hb : b = 0 := h b (List.mem_cons_self b w)
      have hw : dot c w = 0 := ih w (fun x hx => h x (List.mem_cons_of_mem b hx))
      simp [dot] at hw ⊢
      simp [hb, hw]

lemma zeroVec_mem {n : ℕ} : ∀ x ∈ zeroVec n, x = 0 := by
  intro x hx
  exact List.eq_of_mem_replicate hx

lemma matVec_mem_zero (J : Mat) (v : Vec) (hv : ∀ x ∈ v, x = 0) :
    ∀ x ∈ matVec J v, x = 0 := by
  intro x hx
  rcases List.mem_map.1 hx with ⟨row, _, rfl⟩
  exact dot_eq_zero row v hv

lemma addVec_mem_zero (a b : Vec) (ha : ∀ x ∈ a, x = 0) (hb : ∀ x ∈ b, x = 0) :
    ∀ x ∈ addVec a b, x = 0 := by
  induction a generalizing b with
  | nil => intro x hx; simp [addVec] at hx
  | cons y a ih =>
    cases b with
    | nil => intro x hx; simp [addVec] at hx
    | cons z b =>
      intro x hx
      simp only [addVec, List.zipWith_cons_cons, List.mem_cons] at hx
      rcases hx with h | h
      · rw [h, ha y (by simp), hb z (by simp)]; simp
      · exact ih b (fun t ht => ha t (by simp [ht])) (fun t ht => hb t (by simp [ht])) x h

lemma append_mem_zero (a b : Vec) (ha : ∀ x ∈ a, x = 0) (hb : ∀ x ∈ b, x = 0) :
    ∀ x ∈ a ++ b, x = 0 := by
  intro x hx
  rcases List.mem_append.1 hx with h | h
  · exact ha x h
  · exact hb x h

lemma leafT_grad {nG nD : ℕ} (v : Vec) (p : Fin nG ⊕ Fin nD) :
    (leafT v : TVal nG nD).grad p = zeroVec v.length := rfl

lemma detachT_grad {nG nD : ℕ} (x : TVal nG nD) (p : Fin nG ⊕ Fin nD) :
    (detachT x).grad p = zeroVec x.val.length := rfl

lemma catT_grad {nG nD : ℕ} (a b : TVal nG nD) (p : Fin nG ⊕ Fin nD) :
    (catT a b).grad p = a.grad p ++ b.grad p := rfl

/-- If a tensor carries no gradient with respect to a generator
parameter, then neither does any criterion applied to the
discriminator's score of it: the chain rule yields zero. -/
lemma critNetD_grad_inl_zero {nG nD : ℕ} (c : Crit) (net : Net nD) (pv : Fin nD → ℚ)
    (x : TVal nG nD) (y : Bool) (g : Fin nG)
    (hx : ∀ q ∈ x.grad (Sum.inl g), q = 0) :
    (applyCrit c (applyNetD net pv x) y).grad (Sum.inl g) = 0 := by
  simp only [applyCrit, applyNetD]
  exact dot_eq_zero _ _ (addVec_mem_zero _ _ (matVec_mem_zero _ _ hx) zeroVec_mem)

/-- C6: in `backward_D`, `loss_D_fake` is the adversarial loss of the
discriminator's score on the pooled-and-detached fake pair against the
fake label, `loss_D_real` is the adversarial loss of its score on
`cat(real_A, real_B)` against the real label, the combined `loss_D` is
their sum times 0.5, and all three are stored on the instance. -/
theorem backward_D_loss_formula {nG nD : ℕ} (coin : Bool) (idx : ℕ)
    (s : TrainState nG nD) :
    (backward_D coin idx s).loss_D_fake =
      applyCrit s.criterionGAN
        (applyNetD s.netD s.dP (detachT (leafT
          (s.fake_AB_pool.query coin idx (catT s.real_A s.fake_B).val).2))) false
    ∧ (backward_D coin idx s).loss_D_real =
      applyCrit s.criterionGAN (applyNetD s.netD s.dP (catT s.real_A s.real_B)) true
    ∧ (backward_D coin idx s).loss_D =
      scaleS (addS ((backward_D coin idx s).loss_D_fake)
        ((backward_D coin idx s).loss_D_real)) (1/2)
    ∧ (backward_D coin idx s).loss_D.val =
      ((backward_D coin idx s).loss_D_fake.val + (backward_D coin idx s).loss_D_real.val)
        * (1/2) :=
  ⟨rfl, rfl, rfl, rfl⟩

/-- C7: in `backward_G`, `loss_G_GAN` is the adversarial loss, against
the real label, of the discriminator's score on the channel-axis
concatenation of `real_A` and `fake_B` — gradient-connected (its
gradient is the concatenation of the components' gradients), not pooled
and not detached — and `loss_G_L1` is the configured reconstruction loss
of `(fake_B, real_B)` times λ; the total `loss_G` is their sum. -/
theorem backward_G_loss_formula {nG nD : ℕ} (s : TrainState nG nD) :
    (backward_G s).loss_G_GAN =
      applyCrit s.criterionGAN (applyNetD s.netD s.dP (catT s.real_A s.fake_B)) true
    ∧ (backward_G s).loss_G_L1 =
      scaleS (applyRecon s.criterionL1 s.fake_B s.real_B) s.lambda_A
    ∧ (backward_G s).loss_G = addS ((backward_G s).loss_G_GAN) ((backward_G s).loss_G_L1)
    ∧ (backward_G s).loss_G.val =
      (backward_G s).loss_G_GAN.val + (backward_G s).loss_G_L1.val
    ∧ (∀ p, (catT s.real_A s.fake_B).grad p = s.real_A.grad p ++ s.fake_B.grad p) :=
  ⟨rfl, rfl, rfl, rfl, fun _ => rfl⟩

/-- C8: `test` computes the same `real_A`, `fake_B` (the generator
applied to `real_A`) and `real_B` values as `forward`; it differs only
in that no gradients are recorded (the three tensors carry zero
gradients), so overriding those three tensors of the `test` result with
the `forward` ones yields exactly the `forward` result. -/
theorem test_matches_forward {nG nD : ℕ} (s : TrainState nG nD) :
    (test s).real_A.val = (forward s).real_A.val
    ∧ (test s).fake_B.val = (forward s).fake_B.val
    ∧ (test s).real_B.val = (forward s).real_B.val
    ∧ (∀ p, (test s).real_A.grad p = zeroVec ((test s).real_A.val.length))
    ∧ (∀ p, (test s).fake_B.grad p = zeroVec ((test s).fake_B.val.length))
    ∧ (∀ p, (test s).real_B.grad p = zeroVec ((test s).real_B.val.length))
    ∧ { test s with
        real_A := (forward s).real_A
        fake_B := (forward s).fake_B
        real_B := (forward s).real_B } = forward s :=
  ⟨rfl, rfl, rfl, fun _ => rfl, fun _ => rfl, fun _ => rfl, rfl⟩

/-- C1: every `optimize_parameters` call performs exactly, in order:
forward (the generator produces `fake_B` from `real_A`), zero the
discriminator gradients, `backward_D`, discriminator optimizer step,
parameter clipping only in Wasserstein mode, zero the generator
gradients, `backward_G`, generator optimizer step.  The final state is
the corresponding composition — so the discriminator update strictly
precedes the generator update — and the `fake_B` field both backward
passes read is the one the single forward call produced (the generator
applied to the pre-update parameters and `real_A`), never reassigned
within the iteration. -/
theorem optimize_parameters_order {nG nD : ℕ} (uD : Fin nD → ℚ → ℚ → ℚ)
    (uG : Fin nG → ℚ → ℚ → ℚ) (coin : Bool) (idx : ℕ) (s : TrainState nG nD) :
    (optimize_parameters uD uG coin idx s).2 =
      [Event.forwardStep, Event.zeroGradDStep, Event.backwardDStep, Event.optimizerDStep]
        ++ (if s.wasserstein then [Event.clipDStep] else [])
        ++ [Event.zeroGradGStep, Event.backwardGStep, Event.optimizerGStep]
    ∧ (optimize_parameters uD uG coin idx s).1 =
      stepG uG (backward_G (zeroGradG
        (if s.wasserstein then
          clip_D (stepD uD (backward_D coin idx (zeroGradD (forward s))))
        else
          stepD uD (backward_D coin idx (zeroGradD (forward s))))))
    ∧ (optimize_parameters uD uG coin idx s).1.fake_B = (forward s).fake_B
    ∧ (forward s).fake_B = applyNetG s.netG s.gP (leafT s.input_A) := by
  have hws : (stepD uD (backward_D coin idx (zeroGradD (forward s)))).wasserstein
      = s.wasserstein := rfl
  refine ⟨?_, ?_, ?_, rfl⟩ <;>
    cases hw : s.wasserstein <;>
      simp only [optimize_parameters, hws, hw, Bool.false_eq_true, if_false, if_true,
        List.append_assoc, List.nil_append, List.cons_append] <;>
      rfl

/-- C2: in the discriminator phase of `optimize_parameters`, the fake
pair fed to the discriminator — the concatenation of `real_A` and
`fake_B` routed through the image pool and detached — carries zero
gradient with respect to every generator parameter, and consequently
`backward_D` followed by the discriminator optimizer step leaves every
generator parameter value and accumulated generator gradient exactly as
it was. -/
theorem backward_D_no_generator_effect {nG nD : ℕ} (uD : Fin nD → ℚ → ℚ → ℚ)
    (coin : Bool) (idx : ℕ) (s : TrainState nG nD) :
    (∀ g : Fin nG,
      (stepD uD (backward_D coin idx (zeroGradD (forward s)))).gP g = s.gP g)
    ∧ (∀ g : Fin nG,
      (stepD uD (backward_D coin idx (zeroGradD (forward s)))).gGrad g = s.gGrad g)
    ∧ (∀ g : Fin nG, ∀ q ∈
        (detachT (leafT
          ((zeroGradD (forward s)).fake_AB_pool.query coin idx
            (catT (zeroGradD (forward s)).real_A (zeroGradD (forward s)).fake_B).val).2
          : TVal nG nD)).grad (Sum.inl g), q = 0) := by
  refine ⟨fun g => rfl, ?_, fun g q hq => List.eq_of_mem_replicate hq⟩
  intro g
  have h1 : (applyCrit s.criterionGAN
      (applyNetD s.netD s.dP (detachT (leafT
        (s.fake_AB_pool.query coin idx
          (catT (leafT s.input_A)
            (applyNetG s.netG s.gP (leafT s.input_A : TVal nG nD))).val).2)))
      false).grad (Sum.inl g) = 0 :=
    critNetD_grad_inl_zero _ _ _ _ _ _ (fun q hq => List.eq_of_mem_replicate hq)
  have h2 : (applyCrit s.criterionGAN
      (applyNetD s.netD s.dP
        (catT (leafT s.input_A) (leafT s.input_B : TVal nG nD)))
      true).grad (Sum.inl g) = 0 :=
    critNetD_grad_inl_zero _ _ _ _ _ _
      (append_mem_zero _ _ zeroVec_mem zeroVec_mem)
  show s.gGrad g +
      (scaleS (addS
        (applyCrit s.criterionGAN
          (applyNetD s.netD s.dP (detachT (leafT
            (s.fake_AB_pool.query coin idx
              (catT (leafT s.input_A)
                (applyNetG s.netG s.gP (leafT s.input_A))).val).2))) false)
        (applyCrit s.criterionGAN
          (applyNetD s.netD s.dP (catT (leafT s.input_A) (leafT s.input_B))) true))
        (1/2)).grad (Sum.inl g) = s.gGrad g
  simp only [scaleS, addS, h1, h2]
  norm_num

/-- C3: in Wasserstein mode the discriminator parameters are clipped
right after the discriminator optimizer step, so at the start of the
generator update — and in the final state, since the generator phase
never writes discriminator parameter values — every discriminator
parameter lies in `[-0.01, 0.01]`; in non-Wasserstein mode no clipping
is applied: the final discriminator parameters are exactly those the
optimizer step produced. -/
theorem wasserstein_clip_bounds {nG nD : ℕ} (uD : Fin nD → ℚ → ℚ → ℚ)
    (uG : Fin nG → ℚ → ℚ → ℚ) (coin : Bool) (idx : ℕ) (s : TrainState nG nD) :
    (s.wasserstein = true →
      ∀ d : Fin nD,
        -(1/100) ≤ (optimize_parameters uD uG coin idx s).1.dP d
        ∧ (optimize_parameters uD uG coin idx s).1.dP d ≤ 1/100)
    ∧ (s.wasserstein = false →
      (optimize_parameters uD uG coin idx s).1.dP =
        (stepD uD (backward_D coin idx (zeroGradD (forward s)))).dP) := by
  have hws : (stepD uD (backward_D coin idx (zeroGradD (forward s)))).wasserstein
      = s.wasserstein := rfl
  constructor
  · intro hw d
    have hd : (optimize_parameters uD uG coin idx s).1.dP d =
        min (max ((stepD uD (backward_D coin idx (zeroGradD (forward s)))).dP d)
          (-(1/100))) (1/100) := by
      simp only [optimize_parameters, hws, hw, if_true]
      rfl
    rw [hd]
    exact ⟨le_min (le_max_right _ _) (by norm_num), min_le_right _ _⟩
  · intro hw
    simp only [optimize_parameters, hws, hw, Bool.false_eq_true, if_false]
    rfl

/-- C4: when configured in Wasserstein mode (and training), the
adversarial criterion stored by `initialize` is the Wasserstein one,
whose value on a prediction `x` and label `y` is `mean x` times `-1`
when `y` is the real label (`true`) and `+1` when `y` is the fake label
(`false`). -/
theorem initModel_wasserstein_criterion {nG nD : ℕ} (opt : Opt nG nD)
    (hT : opt.isTrain = true) (hW : opt.wasserstein = true) :
    (stateOf (initModel opt)).criterionGAN = some wassersteinCrit
    ∧ ∀ (x : TVal nG nD) (y : Bool),
        (applyCrit wassersteinCrit x y).val
          = mean x.val * (if y then (-1 : ℚ) else 1) := by
  constructor
  · simp only [initModel, hT, hW, if_true]
    split
    · simp [stateOf, finishInit]
    · split
      · simp [stateOf, finishInit]
      · simp [stateOf]
  · intro x y
    cases y
    · simp [applyCrit, wassersteinCrit, wSign, mean]
    · simp [applyCrit, wassersteinCrit, wSign, mean]
      ring

/-- C5: a training-time `initialize` whose reconstruction-loss option is
neither "l1" nor "l2" raises the configuration error, and the state at
the raise point has no optimizer or scheduler constructed; "l1" selects
the mean-absolute-difference loss and "l2" the mean-squared-difference
loss. -/
theorem initModel_recon_validation {nG nD : ℕ} (opt : Opt nG nD) :
    (opt.isTrain = true → opt.recon_loss ≠ "l1" → opt.recon_loss ≠ "l2" →
      ∃ st : InitState nG nD,
        initModel opt = Except.error ("Not a valid reconstruction loss", st)
        ∧ st.optimizer_G = none ∧ st.optimizer_D = none
        ∧ st.optimizers = [] ∧ st.schedulers = [])
    ∧ (opt.isTrain = true → opt.recon_loss = "l1" →
        (stateOf (initModel opt)).criterionL1 = some ReconCrit.l1Loss)
    ∧ (opt.isTrain = true → opt.recon_loss = "l2" →
        (stateOf (initModel opt)).criterionL1 = some ReconCrit.mseLoss)
    ∧ (∀ a b : Vec, ReconCrit.f ReconCrit.l1Loss a b
        = mean (List.zipWith (fun x y => |x - y|) a b))
    ∧ (∀ a b : Vec, ReconCrit.f ReconCrit.mseLoss a b
        = mean (List.zipWith (fun x y => (x - y) ^ 2) a b)) := by
  refine ⟨?_, ?_, ?_, fun a b => rfl, fun a b => rfl⟩
  · intro hT h1 h2
    cases hc : opt.continue_train <;>
      · simp only [initModel, hT, hc, h1, h2, if_true, if_false, Bool.not_true,
          Bool.false_or, Bool.false_eq_true, ite_false, ite_true]
        exact ⟨_, rfl, rfl, rfl, rfl, rfl⟩
  · intro hT hr
    cases hc : opt.continue_train <;>
      simp [initModel, stateOf, finishInit, hT, hr, hc]
  · intro hT hr
    cases hc : opt.continue_train <;>
      simp [initModel, stateOf, finishInit, hT, hr, hc]

/-- With the training flag off, `initialize` returns exactly the state
holding the generator with its checkpointed parameters and nothing
else. -/
lemma initModel_not_train {nG nD : ℕ} (opt : Opt nG nD) (h : opt.isTrain = false) :
    initModel opt = Except.ok
      { isTrain := false
        no_img := opt.no_img && (opt.output_nc == 1)
        netG := opt.netG0
        gP := opt.chkG } := by
  simp [initModel, h]

/-- C9: with the training-mode flag false, `initialize` succeeds having
defined only the generator (with its checkpoint loaded into its
parameters): no discriminator, no image pool, no adversarial or
reconstruction criterion, and no optimizers or schedulers. -/
theorem initModel_inference_mode {nG nD : ℕ} (opt : Opt nG nD)
    (h : opt.isTrain = false) :
    (stateOf (initModel opt)).netD = none
    ∧ (stateOf (initModel opt)).dP = none
    ∧ (stateOf (initModel opt)).fake_AB_pool = none
    ∧ (stateOf (initModel opt)).criterionGAN = none
    ∧ (stateOf (initModel opt)).criterionL1 = none
    ∧ (stateOf (initModel opt)).optimizer_G = none
    ∧ (stateOf (initModel opt)).optimizer_D = none
    ∧ (stateOf (initModel opt)).optimizers = []
    ∧ (stateOf (initModel opt)).schedulers = []
    ∧ (stateOf (initModel opt)).netG = opt.netG0
    ∧ (stateOf (initModel opt)).gP = opt.chkG
    ∧ initModel opt = Except.ok (stateOf (initModel opt)) := by
  simp [initModel_not_train opt h, stateOf]

/-- C10: `save(label)` persists the generator under "G" and the
discriminator under "D" unconditionally; on a state holding both it
writes exactly those two records, and on a state with no discriminator
— in particular on every model initialized with the training flag off —
it raises instead of completing with only the generator record. -/
theorem save_requires_discriminator {nG nD : ℕ} (label : String)
    (st : InitState nG nD) (opt : Opt nG nD) :
    (∀ (n : Net nD) (dp : Fin nD → ℚ), st.netD = some n → st.dP = some dp →
      save st label = Except.ok
        [("G", label, List.ofFn st.gP), ("D", label, List.ofFn dp)])
    ∧ (st.netD = none →
      save st label = Except.error
        ("AttributeError: netD", [("G", label, List.ofFn st.gP)]))
    ∧ (opt.isTrain = false →
      save (stateOf (initModel opt)) label = Except.error
        ("AttributeError: netD", [("G", label, List.ofFn opt.chkG)])) := by
  refine ⟨?_, ?_, ?_⟩
  · intro n dp h1 h2
    simp [save, h1, h2]
  · intro h
    cases hdp : st.dP <;> simp [save, h, hdp]
  · intro h
    simp [initModel_not_train opt h, stateOf, save]

/-- Witness for C3 at a concrete Wasserstein state whose discriminator
parameter starts at 5 (outside the clip range), and a concrete
non-Wasserstein state. -/
theorem wasserstein_clip_bounds_witness :
    (-(1/100) ≤ (optimize_parameters updRule updRule true 0 (sampleTrain true)).1.dP 0
      ∧ (optimize_parameters updRule updRule true 0 (sampleTrain true)).1.dP 0 ≤ 1/100)
    ∧ (optimize_parameters updRule updRule true 0 (sampleTrain false)).1.dP =
        (stepD updRule (backward_D true 0 (zeroGradD (forward (sampleTrain false))))).dP :=
  ⟨(wasserstein_clip_bounds updRule updRule true 0 (sampleTrain true)).1 rfl 0,
   (wasserstein_clip_bounds updRule updRule true 0 (sampleTrain false)).2 rfl⟩

/-- Witness for C4 at a concrete training-time Wasserstein
configuration and a concrete prediction tensor. -/
theorem initModel_wasserstein_criterion_witness :
    (stateOf (initModel (sampleOpt true true "l1"))).criterionGAN = some wassersteinCrit
    ∧ (applyCrit wassersteinCrit (⟨[2], fun _ => []⟩ : TVal 1 1) true).val
        = mean [2] * (if true then (-1 : ℚ) else 1) :=
  ⟨(initModel_wasserstein_criterion (sampleOpt true true "l1") rfl rfl).1,
   (initModel_wasserstein_criterion (sampleOpt true true "l1") rfl rfl).2
     ⟨[2], fun _ => []⟩ true⟩

/-- Witness for C5: a concrete "huber" configuration raises with no
optimizer state, and concrete "l1" / "l2" configurations select the two
losses. -/
theorem initModel_recon_validation_witness :
    (∃ st : InitState 1 1,
      initModel (sampleOpt true false "huber")
          = Except.error ("Not a valid reconstruction loss", st)
        ∧ st.optimizer_G = none ∧ st.optimizer_D = none
        ∧ st.optimizers = [] ∧ st.schedulers = [])
    ∧ (stateOf (initModel (sampleOpt true false "l1"))).criterionL1
        = some ReconCrit.l1Loss
    ∧ (stateOf (initModel (sampleOpt true false "l2"))).criterionL1
        = some ReconCrit.mseLoss :=
  ⟨(initModel_recon_validation (sampleOpt true false "huber")).1 rfl
      (by decide) (by decide),
   (initModel_recon_validation (sampleOpt true false "l1")).2.1 rfl rfl,
   (initModel_recon_validation (sampleOpt true false "l2")).2.2.1 rfl rfl⟩

/-- Witness for C9 at a concrete inference-mode configuration. -/
theorem initModel_inference_mode_witness :
    (stateOf (initModel (sampleOpt false false "l1"))).netD = none
    ∧ (stateOf (initModel (sampleOpt false false "l1"))).dP = none
    ∧ (stateOf (initModel (sampleOpt false false "l1"))).fake_AB_pool = none
    ∧ (stateOf (initModel (sampleOpt false false "l1"))).criterionGAN = none
    ∧ (stateOf (initModel (sampleOpt false false "l1"))).criterionL1 = none
    ∧ (stateOf (initModel (sampleOpt false false "l1"))).optimizer_G = none
    ∧ (stateOf (initModel (sampleOpt false false "l1"))).optimizer_D = none
    ∧ (stateOf (initModel (sampleOpt false false "l1"))).optimizers = []
    ∧ (stateOf (initModel (sampleOpt false false "l1"))).schedulers = []
    ∧ (stateOf (initModel (sampleOpt false false "l1"))).netG
        = (sampleOpt false false "l1").netG0
    ∧ (stateOf (initModel (sampleOpt false false "l1"))).gP
        = (sampleOpt false false "l1").chkG
    ∧ initModel (sampleOpt false false "l1")
        = Except.ok (stateOf (initModel (sampleOpt false false "l1"))) :=
  initModel_inference_mode (sampleOpt false false "l1") rfl

/-- Witness for C10: saving a concrete trained state writes the "G" and
"D" records; saving a concrete inference-mode state raises after the
"G" record. -/
theorem save_requires_discriminator_witness :
    save (stateOf (initModel (sampleOpt true true "l1"))) "latest" = Except.ok
      [("G", "latest", List.ofFn (stateOf (initModel (sampleOpt true true "l1"))).gP),
       ("D", "latest", List.ofFn (fun _ : Fin 1 => (2 : ℚ)))]
    ∧ save (stateOf (initModel (sampleOpt false false "l1"))) "latest" = Except.error
        ("AttributeError: netD",
         [("G", "latest", List.ofFn (stateOf (initModel (sampleOpt false false "l1"))).gP)])
    ∧ save (stateOf (initModel (sampleOpt false false "l1"))) "latest" = Except.error
        ("AttributeError: netD",
         [("G", "latest", List.ofFn (sampleOpt false false "l1").chkG)]) :=
  ⟨(save_requires_discriminator "latest"
      (stateOf (initModel (sampleOpt true true "l1"))) (sampleOpt false false "l1")).1
      tinyNet (fun _ => 2) rfl rfl,
   (save_requires_discriminator "latest"
      (stateOf (initModel (sampleOpt false false "l1"))) (sampleOpt false false "l1")).2.1 rfl,
   (save_requires_discriminator "latest"
      (stateOf (initModel (sampleOpt false false "l1"))) (sampleOpt false false "l1")).2.2 rfl⟩

end Vox2Vox
